import Mathlib

/-!
Shallow embedding of the `idshield` group/capability creation pipeline
(`webservices/groupservice/grouphandler.go` and
`webservices/groupservice/create_capability.go`), together with theorems
settling the specification claims about it.

External collaborators (the `alya` wscutils/router helpers, the
go-playground validator and the gocloak client) are not part of this
repository; where their behaviour is needed it is modelled from the
specification's contract for them, and each such definition says so in
its doc comment.  Everything else is translated directly from the Go
source.  Nil-pointer dereferences are modelled by `Option`: a `none`
result of a step that dereferences a pointer means the Go code panics.
-/

set_option autoImplicit false

namespace Idshield

/-- Attribute maps `map[string][]string`, kept as an association list. -/
def Attrs : Type := List (String × List String)

instance : DecidableEq Attrs := by
  unfold Attrs
  infer_instance

/-- `CreateGroupRequest` / `CreateCapabilityRequest` (the two Go structs are
identical): `Name *string` and `Attributes *map[string][]string`; the
pointers are modelled by `Option`. -/
structure CreateGroupRequest where
  name : Option String
  attributes : Option Attrs
deriving DecidableEq

/-- The payload of a success response (`CreateGroupResponse` /
`CreateCapabilityResponse` in the Go source): `ID`, `Name`, optional
`Path` and optional `Attributes`. -/
structure CreateGroupResponse where
  id : String
  name : String
  path : Option String
  attributes : Option Attrs
deriving DecidableEq

/-- One entry of the `messages` array of an error envelope
(`wscutils.ErrorMessage`): a symbolic code, an optional field name and a
list of vals (the spec's `context`). -/
structure ErrorMessage where
  errCode : String
  field : Option String
  vals : List String
deriving DecidableEq

/-- The client-visible envelope (`wscutils.Response`): a status string,
optional success data and a list of error messages. -/
structure Response where
  status : String
  data : Option CreateGroupResponse
  messages : List ErrorMessage
deriving DecidableEq

/-- `wscutils.ErrorStatus`: the status string of an error envelope. -/
def errorStatus : String := "error"

/-- `wscutils.SuccessStatus`: the status string of a success envelope. -/
def successStatus : String := "success"

/-- Modelled from the spec: the external `wscutils.NewErrorResponse`
collaborator builds an error envelope carrying exactly one message with
the given symbolic code (spec section 4.5 and scenarios B and D). -/
def newErrorResponse (code : String) : Response :=
  { status := errorStatus, data := none, messages := [{ errCode := code, field := none, vals := [] }] }

/-- Modelled from the spec: the external `wscutils.NewResponse`
collaborator builds an envelope from a status, optional data and
messages verbatim. -/
def newResponse (status : String) (data : Option CreateGroupResponse)
    (messages : List ErrorMessage) : Response :=
  { status := status, data := data, messages := messages }

/-- Modelled from the spec: the external `wscutils.SendSuccessResponse`
collaborator emits the given envelope as the success envelope, with
status `success` (spec section 4.5: on success emit status "success"). -/
def sendSuccessResponse (r : Response) : Response :=
  { r with status := successStatus }

/-- Modelled from the spec: the external `router.ExtractToken`
collaborator (spec section 4.1) parses the raw `Authorization` header:
it fails when the header is absent (empty string), empty, or not
prefixed with the case-sensitive scheme "Bearer "; otherwise the token
is the rest of the header. -/
def extractToken (header : String) : Option String :=
  if "Bearer ".data.isPrefixOf header.data then
    some (String.mk (header.data.drop 7))
  else
    none

/-- Modelled from the spec: the external validator applied by
`wscutils.WscValidate` enforces `validate:"required"` on the `name`
field (spec section 4.2: `name` must be present and non-empty); each
violation is reported with field name "name" and tag "required". -/
def wscValidateName (name : Option String) : List (String × String) :=
  match name with
  | none => [("name", "required")]
  | some s => if s = "" then [("name", "required")] else []

/-- `(req *CreateCapabilityRequest) getValsForCreateCapabilityError` from
`create_capability.go`: on field "name" and tag "required" it appends
the human-readable message and then dereferences `*req.Name`; a `none`
result models the nil-pointer panic when `Name` is nil. -/
def getValsForCreateCapabilityError (req : CreateGroupRequest)
    (field tag : String) : Option (List String) :=
  if field = "name" then
    if tag = "required" then
      match req.name with
      | some n => some ["Capability name is required", n]
      | none => none
    else some []
  else some []

/-- `(req *CreateGroupRequest) getValsForCreateCapabilityError` from
`grouphandler.go`: identical to the capability variant except for the
message text "group name is required". -/
def getValsForCreateGroupError (req : CreateGroupRequest)
    (field tag : String) : Option (List String) :=
  if field = "name" then
    if tag = "required" then
      match req.name with
      | some n => some ["group name is required", n]
      | none => none
    else some []
  else some []

/-- `validateCreateCapability` from `create_capability.go`:
`wscutils.WscValidate(req, req.getValsForCreateCapabilityError)` — for
each field violation the vals callback is run and an `ErrorMessage`
with the violation's field and tag is built.  `none` models a panic
inside the vals callback. -/
def validateCreateCapability (req : CreateGroupRequest) :
    Option (List ErrorMessage) :=
  (wscValidateName req.name).mapM (fun fe =>
    (getValsForCreateCapabilityError req fe.1 fe.2).map (fun vals =>
      { errCode := fe.2, field := some fe.1, vals := vals }))

/-- `validateCreateGroup` from `grouphandler.go`: same as the capability
variant but with the group vals callback. -/
def validateCreateGroup (req : CreateGroupRequest) :
    Option (List ErrorMessage) :=
  (wscValidateName req.name).mapM (fun fe =>
    (getValsForCreateGroupError req fe.1 fe.2).map (fun vals =>
      { errCode := fe.2, field := some fe.1, vals := vals }))

/-- The conflict template built at line 107 of both handlers:
`fmt.Sprintf("409 Conflict: Top level group named '%s' already exists.", name)`. -/
def conflictTemplate (name : String) : String :=
  "409 Conflict: Top level group named '" ++ name ++ "' already exists."

/-- The exact raw provider error matched by the first switch case of both
handlers (line 110). -/
def unauthorizedRaw : String := "401 Unauthorized: HTTP 401 Unauthorized"

/-- The error-classification switch of both handlers (lines 107-122,
identical in the two files): the raw provider error of the create call
is matched, in order, against the exact 401 string and the conflict
template interpolated with the submitted name; anything else falls to
the default case.  The result is the symbolic code handed to
`wscutils.NewErrorResponse`. -/
def classifyCreateError (name rawErr : String) : String :=
  if rawErr = unauthorizedRaw then "Unauthorized"
  else if rawErr = conflictTemplate name then "name already exist"
  else "unknown"

/-- The group record returned by `gocloak.GetGroup`: pointer fields `ID`,
`Name`, `Path`, `Attributes`, each modelled by `Option`. -/
structure GocloakGroup where
  id : Option String
  name : Option String
  path : Option String
  attributes : Option Attrs
deriving DecidableEq

instance {ε α : Type} [DecidableEq ε] [DecidableEq α] : DecidableEq (Except ε α) := fun a b =>
  match a, b with
  | .error e₁, .error e₂ =>
    if h : e₁ = e₂ then .isTrue (by rw [h]) else .isFalse (by intro hc; cases hc; exact h rfl)
  | .ok a₁, .ok a₂ =>
    if h : a₁ = a₂ then .isTrue (by rw [h]) else .isFalse (by intro hc; cases hc; exact h rfl)
  | .error _, .ok _ => .isFalse (by intro hc; cases hc)
  | .ok _, .error _ => .isFalse (by intro hc; cases hc)

/-- The behaviour of the external provider (gocloak client) for one
request: the result of `CreateGroup` (created id, or a raw error
string) and the result of `GetGroup` on the created id (group record,
or a raw error string). -/
structure ProviderBehavior where
  createResult : Except String String
  getResult : Except String GocloakGroup
deriving DecidableEq

/-- The request body as seen after `wscutils.BindJSON`: either the bind
fails (malformed JSON / wrong shape) or it yields a decoded request. -/
inductive RequestBody where
  | invalid : RequestBody
  | valid : CreateGroupRequest → RequestBody
deriving DecidableEq

/-- How a handler run ends: a structured envelope was sent, or the
handler returned without sending anything (the bare `return` on
`GetGroup` failure), or the goroutine panicked on a nil-pointer
dereference. -/
inductive Outcome where
  | responded : Response → Outcome
  | noResponse : Outcome
  | panicked : Outcome
deriving DecidableEq

/-- The observable result of one handler run: its outcome plus the number
of `CreateGroup` and `GetGroup` calls made to the provider. -/
structure HandlerResult where
  outcome : Outcome
  createCalls : Nat
  getCalls : Nat
deriving DecidableEq

/-- `HandleCapabilityCreateRequest` from `create_capability.go`: extract
the bearer token (else respond `token_missing`); bind the JSON body
(else respond `invalid_json`); validate (on violations respond with the
error-status envelope carrying them); call `CreateGroup` (on error,
build the conflict template from `*createCapabilityReq.Name` — a nil
`Name` panics — and classify); call `GetGroup` (on error, print and
return without responding); finally compose the success payload from
`*groupInfo.ID`, `*groupInfo.Name`, `groupInfo.Path`,
`groupInfo.Attributes` (nil `ID` or `Name` panics) and send it via
`SendSuccessResponse` with a `Response` whose `Status` is left unset. -/
def HandleCapabilityCreateRequest (authHeader : String) (body : RequestBody)
    (p : ProviderBehavior) : HandlerResult :=
  match extractToken authHeader with
  | none => ⟨.responded (newErrorResponse "token_missing"), 0, 0⟩
  | some _token =>
    match body with
    | .invalid => ⟨.responded (newErrorResponse "invalid_json"), 0, 0⟩
    | .valid req =>
      match validateCreateCapability req with
      | none => ⟨.panicked, 0, 0⟩
      | some validationErrors =>
        if validationErrors.length > 0 then
          ⟨.responded (newResponse errorStatus none validationErrors), 0, 0⟩
        else
          match p.createResult with
          | .error err =>
            match req.name with
            | none => ⟨.panicked, 1, 0⟩
            | some nm =>
              ⟨.responded (newErrorResponse (classifyCreateError nm err)), 1, 0⟩
          | .ok _capabilityCreationID =>
            match p.getResult with
            | .error _ => ⟨.noResponse, 1, 1⟩
            | .ok groupInfo =>
              match groupInfo.id, groupInfo.name with
              | some gid, some gname =>
                ⟨.responded (sendSuccessResponse
                  { status := "", data := some ⟨gid, gname, groupInfo.path, groupInfo.attributes⟩,
                    messages := [] }), 1, 1⟩
              | _, _ => ⟨.panicked, 1, 1⟩

/-- `HandleGroupCreationRequest` from `grouphandler.go`: identical
pipeline to `HandleCapabilityCreateRequest` except that validation uses
the group vals callback and the success `Response` literal sets
`Status: "success"` explicitly. -/
def HandleGroupCreationRequest (authHeader : String) (body : RequestBody)
    (p : ProviderBehavior) : HandlerResult :=
  match extractToken authHeader with
  | none => ⟨.responded (newErrorResponse "token_missing"), 0, 0⟩
  | some _token =>
    match body with
    | .invalid => ⟨.responded (newErrorResponse "invalid_json"), 0, 0⟩
    | .valid req =>
      match validateCreateGroup req with
      | none => ⟨.panicked, 0, 0⟩
      | some validationErrors =>
        if validationErrors.length > 0 then
          ⟨.responded (newResponse errorStatus none validationErrors), 0, 0⟩
        else
          match p.createResult with
          | .error err =>
            match req.name with
            | none => ⟨.panicked, 1, 0⟩
            | some nm =>
              ⟨.responded (newErrorResponse (classifyCreateError nm err)), 1, 0⟩
          | .ok _groupCreationID =>
            match p.getResult with
            | .error _ => ⟨.noResponse, 1, 1⟩
            | .ok groupInfo =>
              match groupInfo.id, groupInfo.name with
              | some gid, some gname =>
                ⟨.responded (sendSuccessResponse
                  { status := successStatus,
                    data := some ⟨gid, gname, groupInfo.path, groupInfo.attributes⟩,
                    messages := [] }), 1, 1⟩
              | _, _ => ⟨.panicked, 1, 1⟩

/-- Timing model of lines 93-126 of both handlers: a single
`context.WithTimeout(c, 10*time.Second)` is created once, before the
create call, and the same context is passed to both `CreateGroup` and
`GetGroup`.  Times are in seconds from the context's creation. -/
def ctxDeadline (start : Nat) : Nat := start + 10

/-- The durations the two provider calls would take for one request. -/
structure CallTimings where
  createDuration : Nat
  getDuration : Nat
deriving DecidableEq

/-- Start time of the `CreateGroup` call: immediately after the context
is created. -/
def createCallStart (start : Nat) : Nat := start

/-- Whether the `CreateGroup` call runs past the deadline of the context
it is given. -/
def createCallDeadlineExceeded (start : Nat) (t : CallTimings) : Bool :=
  ctxDeadline start < createCallStart start + t.createDuration

/-- Start time of the `GetGroup` call: after the create call finishes. -/
def getCallStart (start : Nat) (t : CallTimings) : Nat :=
  start + t.createDuration

/-- Whether the `GetGroup` call runs past the deadline of the context it
is given — per the source this is the same context created before the
create call, not a fresh one. -/
def getCallDeadlineExceeded (start : Nat) (t : CallTimings) : Bool :=
  ctxDeadline start < getCallStart start t + t.getDuration

end Idshield

namespace Idshield

/-! ## Helper lemmas about validation -/

theorem wscValidateName_pass (s : String) (h : s ≠ "") :
    wscValidateName (some s) = [] := by
  simp [wscValidateName, h]

theorem validateCreateCapability_pass (req : CreateGroupRequest) (nm : String)
    (hn : req.name = some nm) (hne : nm ≠ "") :
    validateCreateCapability req = some [] := by
  simp [validateCreateCapability, hn, wscValidateName_pass nm hne, List.mapM.loop]

theorem validateCreateGroup_pass (req : CreateGroupRequest) (nm : String)
    (hn : req.name = some nm) (hne : nm ≠ "") :
    validateCreateGroup req = some [] := by
  simp [validateCreateGroup, hn, wscValidateName_pass nm hne, List.mapM.loop]

theorem validateCreateCapability_nil_name (req : CreateGroupRequest)
    (hn : req.name = none) :
    validateCreateCapability req = none := by
  simp [validateCreateCapability, hn, wscValidateName, getValsForCreateCapabilityError,
    List.mapM.loop]

theorem validateCreateGroup_nil_name (req : CreateGroupRequest)
    (hn : req.name = none) :
    validateCreateGroup req = none := by
  simp [validateCreateGroup, hn, wscValidateName, getValsForCreateGroupError,
    List.mapM.loop]

theorem validateCreateCapability_empty_name (req : CreateGroupRequest)
    (hn : req.name = some "") :
    validateCreateCapability req =
      some [⟨"required", some "name", ["Capability name is required", ""]⟩] := by
  simp [validateCreateCapability, hn, wscValidateName, getValsForCreateCapabilityError,
    List.mapM.loop]

theorem validateCreateGroup_empty_name (req : CreateGroupRequest)
    (hn : req.name = some "") :
    validateCreateGroup req =
      some [⟨"required", some "name", ["group name is required", ""]⟩] := by
  simp [validateCreateGroup, hn, wscValidateName, getValsForCreateGroupError,
    List.mapM.loop]

theorem validateCreateCapability_pass_name (req : CreateGroupRequest)
    (h : validateCreateCapability req = some []) :
    ∃ nm : String, req.name = some nm ∧ nm ≠ "" := by
  cases hn : req.name with
  | none => rw [validateCreateCapability_nil_name req hn] at h; cases h
  | some s =>
    by_cases hs : s = ""
    · subst hs
      rw [validateCreateCapability_empty_name req hn] at h
      cases h
    · exact ⟨s, rfl, hs⟩

end Idshield

namespace Idshield

/-! ## Helper lemmas about the handlers' branches -/

theorem HandleCapability_create_error (header tok : String) (req : CreateGroupRequest)
    (nm : String) (p : ProviderBehavior) (e : String)
    (ht : extractToken header = some tok) (hn : req.name = some nm) (hne : nm ≠ "")
    (hc : p.createResult = .error e) :
    HandleCapabilityCreateRequest header (.valid req) p =
      ⟨.responded (newErrorResponse (classifyCreateError nm e)), 1, 0⟩ := by
  simp [HandleCapabilityCreateRequest, ht, validateCreateCapability_pass req nm hn hne, hc, hn]

theorem HandleGroup_create_error (header tok : String) (req : CreateGroupRequest)
    (nm : String) (p : ProviderBehavior) (e : String)
    (ht : extractToken header = some tok) (hn : req.name = some nm) (hne : nm ≠ "")
    (hc : p.createResult = .error e) :
    HandleGroupCreationRequest header (.valid req) p =
      ⟨.responded (newErrorResponse (classifyCreateError nm e)), 1, 0⟩ := by
  simp [HandleGroupCreationRequest, ht, validateCreateGroup_pass req nm hn hne, hc, hn]

theorem timeoutRaw_ne_unauthorized : "context deadline exceeded" ≠ unauthorizedRaw := by
  decide

theorem conflict_ne_unauthorized (nm : String) :
    conflictTemplate nm ≠ unauthorizedRaw := by
  intro h
  have hlen := congrArg String.length h
  rw [conflictTemplate, String.length_append, String.length_append] at hlen
  have h1 : ("409 Conflict: Top level group named '" : String).length = 37 := by decide
  have h2 : ("' already exists." : String).length = 17 := by decide
  have h3 : (unauthorizedRaw).length = 39 := by decide
  rw [h1, h2, h3] at hlen
  omega

theorem timeoutRaw_ne_conflict (nm : String) :
    "context deadline exceeded" ≠ conflictTemplate nm := by
  intro h
  have hlen := congrArg String.length h
  rw [conflictTemplate, String.length_append, String.length_append] at hlen
  have h1 : ("context deadline exceeded" : String).length = 25 := by decide
  have h2 : ("409 Conflict: Top level group named '" : String).length = 37 := by decide
  have h3 : ("' already exists." : String).length = 17 := by decide
  rw [h1, h2, h3] at hlen
  omega

end Idshield

namespace Idshield

/-! ## Claim theorems -/

/-- Claim C1.  The claim says every pipeline failure ends in a structured
error envelope and in particular that a `GetGroup` failure after a
successful create ends in `Responded(ProviderFetchFailed)`.  At the
concrete failing input (valid bearer header, valid body with name
"Admins", create succeeds with id "g-1", get fails) both handlers
instead end with no structured response at all — the bare `return` at
lines 126-130 of `create_capability.go` and 126-129 of
`grouphandler.go` — confirming the defect the claim describes. -/
theorem c1_getGroup_failure_ends_without_response :
    HandleCapabilityCreateRequest "Bearer tok1" (.valid ⟨some "Admins", none⟩)
        ⟨.ok "g-1", .error "fetch failed"⟩ = ⟨.noResponse, 1, 1⟩ ∧
    HandleGroupCreationRequest "Bearer tok1" (.valid ⟨some "Admins", none⟩)
        ⟨.ok "g-1", .error "fetch failed"⟩ = ⟨.noResponse, 1, 1⟩ := by
  decide

/-- Claim C2, counterexample.  The claim says the name-conflict taxonomy
entry is reported to the client as the symbolic code
"name_already_exist"; at the concrete conflict input the handler
responds with the code "name already exist" (spaces, from line 116 of
both handlers), which is a different string. -/
theorem c2_conflict_code_counterexample :
    (HandleCapabilityCreateRequest "Bearer tok1" (.valid ⟨some "Admins", none⟩)
        ⟨.error (conflictTemplate "Admins"), .error ""⟩).outcome =
      .responded (newErrorResponse "name already exist") ∧
    (newErrorResponse "name already exist").messages =
      [⟨"name already exist", none, []⟩] ∧
    "name already exist" ≠ "name_already_exist" := by
  decide

/-- Claim C2, amended.  The classifier maps every raw provider creation
error to exactly one symbolic code, matched in priority order with
first match winning: the exact 401 string to "Unauthorized", the
conflict template interpolated with the submitted name to
"name already exist" (not "name_already_exist"), and anything else to
"unknown". -/
theorem c2_classifier_taxonomy (name rawErr : String) :
    (rawErr = unauthorizedRaw → classifyCreateError name rawErr = "Unauthorized") ∧
    (rawErr ≠ unauthorizedRaw → rawErr = conflictTemplate name →
      classifyCreateError name rawErr = "name already exist") ∧
    (rawErr ≠ unauthorizedRaw → rawErr ≠ conflictTemplate name →
      classifyCreateError name rawErr = "unknown") := by
  refine ⟨?_, ?_, ?_⟩
  · intro h
    simp [classifyCreateError, h]
  · intro h1 h2
    subst h2
    simp [classifyCreateError, conflict_ne_unauthorized name]
  · intro h1 h2
    simp [classifyCreateError, h1, h2]

/-- Witness for `c2_classifier_taxonomy` at a concrete input: the conflict
string for name "Admins" is not the 401 string, and it is classified as
"name already exist". -/
theorem c2_classifier_taxonomy_witness :
    conflictTemplate "Admins" ≠ unauthorizedRaw ∧
    classifyCreateError "Admins" (conflictTemplate "Admins") = "name already exist" :=
  ⟨by decide, (c2_classifier_taxonomy "Admins" (conflictTemplate "Admins")).2.1 (by decide) rfl⟩

/-- Claim C3.  The claim says an empty or absent `name` yields exactly one
ValidationError whose context is the message followed by the submitted
name or empty when absent, with no provider call.  For the empty-string
name this holds (first two conjuncts), but for an absent name both vals
callbacks dereference the nil `Name` pointer (`*req.Name`, line 166 of
`create_capability.go` / line 165 of `grouphandler.go`) and the
handlers panic without producing any ValidationError; no provider call
is made in either case. -/
theorem c3_absent_name_panics :
    validateCreateCapability ⟨some "", none⟩ =
      some [⟨"required", some "name", ["Capability name is required", ""]⟩] ∧
    validateCreateGroup ⟨some "", none⟩ =
      some [⟨"required", some "name", ["group name is required", ""]⟩] ∧
    validateCreateCapability ⟨none, none⟩ = none ∧
    validateCreateGroup ⟨none, none⟩ = none ∧
    HandleCapabilityCreateRequest "Bearer tok1" (.valid ⟨none, none⟩)
        ⟨.ok "g-1", .error ""⟩ = ⟨.panicked, 0, 0⟩ ∧
    HandleGroupCreationRequest "Bearer tok1" (.valid ⟨none, none⟩)
        ⟨.ok "g-1", .error ""⟩ = ⟨.panicked, 0, 0⟩ := by
  decide

/-- Claim C4.  Whenever the `Authorization` header is absent (empty
string), empty, or not prefixed with the case-sensitive scheme
"Bearer ", both handlers respond with the `token_missing` error
envelope and make no provider call at all. -/
theorem c4_token_missing_short_circuits (header : String) (body : RequestBody)
    (p : ProviderBehavior)
    (h : ¬ ("Bearer ".data.isPrefixOf header.data = true)) :
    HandleCapabilityCreateRequest header body p =
      ⟨.responded (newErrorResponse "token_missing"), 0, 0⟩ ∧
    HandleGroupCreationRequest header body p =
      ⟨.responded (newErrorResponse "token_missing"), 0, 0⟩ := by
  have he : extractToken header = none := by
    simp [extractToken, h]
  constructor
  · simp [HandleCapabilityCreateRequest, he]
  · simp [HandleGroupCreationRequest, he]

/-- Witness for `c4_token_missing_short_circuits` at the concrete header
"Basic abc". -/
theorem c4_token_missing_short_circuits_witness :
    ¬ ("Bearer ".data.isPrefixOf "Basic abc".data = true) ∧
    HandleCapabilityCreateRequest "Basic abc" (.valid ⟨some "Admins", none⟩)
        ⟨.ok "g-1", .error ""⟩ =
      ⟨.responded (newErrorResponse "token_missing"), 0, 0⟩ :=
  ⟨by decide,
    (c4_token_missing_short_circuits "Basic abc" (.valid ⟨some "Admins", none⟩)
      ⟨.ok "g-1", .error ""⟩ (by decide)).1⟩

/-- Claim C5, counterexample.  The claim says a timed-out provider call
reaches the client as the symbolic code "provider_timeout"; at the
concrete input where the create call fails with the context's
deadline-exceeded error, the handler responds with the single code
"unknown" — no "provider_timeout" branch exists in the source. -/
theorem c5_timeout_counterexample :
    (HandleGroupCreationRequest "Bearer tok1" (.valid ⟨some "Admins", none⟩)
        ⟨.error "context deadline exceeded", .error ""⟩).outcome =
      .responded (newErrorResponse "unknown") ∧
    (newErrorResponse "unknown").messages = [⟨"unknown", none, []⟩] ∧
    newErrorResponse "unknown" ≠ newErrorResponse "provider_timeout" := by
  decide

/-- Claim C5, amended.  A provider create call that exceeds the 10-second
context deadline fails with the raw error "context deadline exceeded",
which matches neither classifier pattern, so the client receives the
error envelope with the symbolic code "unknown" (not
"provider_timeout"). -/
theorem c5_timeout_reported_as_unknown (header tok : String) (req : CreateGroupRequest)
    (nm : String) (p : ProviderBehavior)
    (ht : extractToken header = some tok) (hn : req.name = some nm) (hne : nm ≠ "")
    (hc : p.createResult = .error "context deadline exceeded") :
    HandleCapabilityCreateRequest header (.valid req) p =
      ⟨.responded (newErrorResponse "unknown"), 1, 0⟩ ∧
    HandleGroupCreationRequest header (.valid req) p =
      ⟨.responded (newErrorResponse "unknown"), 1, 0⟩ := by
  have hclass : classifyCreateError nm "context deadline exceeded" = "unknown" := by
    simp [classifyCreateError, timeoutRaw_ne_unauthorized, timeoutRaw_ne_conflict nm]
  constructor
  · rw [HandleCapability_create_error header tok req nm p _ ht hn hne hc, hclass]
  · rw [HandleGroup_create_error header tok req nm p _ ht hn hne hc, hclass]

/-- Witness for `c5_timeout_reported_as_unknown` at concrete inputs. -/
theorem c5_timeout_reported_as_unknown_witness :
    extractToken "Bearer tok1" = some "tok1" ∧
    HandleGroupCreationRequest "Bearer tok1" (.valid ⟨some "Admins", none⟩)
        ⟨.error "context deadline exceeded", .error ""⟩ =
      ⟨.responded (newErrorResponse "unknown"), 1, 0⟩ :=
  ⟨by decide,
    (c5_timeout_reported_as_unknown "Bearer tok1" "tok1" ⟨some "Admins", none⟩ "Admins"
      ⟨.error "context deadline exceeded", .error ""⟩ (by decide) rfl (by decide) rfl).2⟩

end Idshield

namespace Idshield

/-- Claim C6.  On every successful creation (valid token and body, create
returns an id, the follow-up get returns a group whose `ID` and `Name`
pointers are set), both handlers emit a success-status envelope whose
data fields `id`, `name`, `path` and `attributes` are exactly the
fields of the group returned by the `GetGroup` call — nothing is
fabricated, dropped or mutated. -/
theorem c6_success_round_trip (header tok : String) (req : CreateGroupRequest)
    (nm : String) (p : ProviderBehavior) (cid : String) (g : GocloakGroup)
    (gid gname : String)
    (ht : extractToken header = some tok) (hn : req.name = some nm) (hne : nm ≠ "")
    (hc : p.createResult = .ok cid) (hg : p.getResult = .ok g)
    (hgid : g.id = some gid) (hgname : g.name = some gname) :
    HandleCapabilityCreateRequest header (.valid req) p =
      ⟨.responded ⟨successStatus, some ⟨gid, gname, g.path, g.attributes⟩, []⟩, 1, 1⟩ ∧
    HandleGroupCreationRequest header (.valid req) p =
      ⟨.responded ⟨successStatus, some ⟨gid, gname, g.path, g.attributes⟩, []⟩, 1, 1⟩ := by
  constructor <;>
    simp [HandleCapabilityCreateRequest, HandleGroupCreationRequest, ht,
      validateCreateCapability_pass req nm hn hne, validateCreateGroup_pass req nm hn hne,
      hc, hg, hgid, hgname, sendSuccessResponse]

/-- Witness for `c6_success_round_trip`: scenario A of the spec, evaluated
concretely. -/
theorem c6_success_round_trip_witness :
    extractToken "Bearer tok1" = some "tok1" ∧
    HandleGroupCreationRequest "Bearer tok1" (.valid ⟨some "Admins", none⟩)
        ⟨.ok "g-1", .ok ⟨some "g-1", some "Admins", some "/Admins", none⟩⟩ =
      ⟨.responded ⟨successStatus, some ⟨"g-1", "Admins", some "/Admins", none⟩, []⟩, 1, 1⟩ :=
  ⟨by decide,
    (c6_success_round_trip "Bearer tok1" "tok1" ⟨some "Admins", none⟩ "Admins"
      ⟨.ok "g-1", .ok ⟨some "g-1", some "Admins", some "/Admins", none⟩⟩ "g-1"
      ⟨some "g-1", some "Admins", some "/Admins", none⟩ "g-1" "Admins"
      (by decide) rfl (by decide) rfl rfl rfl rfl).2⟩

/-- Claim C7, counterexample.  The claim says the get call is bounded by
its own independent 10-second timeout measured from that call's start;
with the create call taking 7 seconds and the get call 5 seconds, the
get call exceeds the (single, shared) context deadline even though its
own duration is within 10 seconds — and the create call itself does
not. -/
theorem c7_get_call_not_independently_bounded :
    getCallDeadlineExceeded 0 (CallTimings.mk 7 5) = true ∧
    (CallTimings.mk 7 5).getDuration ≤ 10 ∧
    createCallDeadlineExceeded 0 (CallTimings.mk 7 5) = false := by
  decide

/-- Claim C7, amended.  Both provider calls share the single context
created at line 93, whose deadline is 10 seconds after the context's
creation (just before the create call): the create call times out
exactly when its own duration exceeds 10 seconds, while the get call
times out exactly when the create call's duration plus its own exceeds
10 seconds — not an independent 10-second budget from its start. -/
theorem c7_shared_deadline (start : Nat) (t : CallTimings) :
    createCallDeadlineExceeded start t = decide (10 < t.createDuration) ∧
    getCallDeadlineExceeded start t = decide (10 < t.createDuration + t.getDuration) := by
  constructor
  · simp only [createCallDeadlineExceeded, ctxDeadline, createCallStart, decide_eq_decide]
    omega
  · simp only [getCallDeadlineExceeded, ctxDeadline, getCallStart, decide_eq_decide]
    omega

/-- Claim C8, counterexample.  On the same input (valid bearer header,
body with empty name, same provider behaviour) the two route handlers
produce different client-visible envelopes: the vals of the single
validation message read "Capability name is required" in one and
"group name is required" in the other. -/
theorem c8_handlers_differ_on_empty_name :
    HandleCapabilityCreateRequest "Bearer tok1" (.valid ⟨some "", none⟩)
        ⟨.error "x", .error ""⟩ =
      ⟨.responded (newResponse errorStatus none
        [⟨"required", some "name", ["Capability name is required", ""]⟩]), 0, 0⟩ ∧
    HandleGroupCreationRequest "Bearer tok1" (.valid ⟨some "", none⟩)
        ⟨.error "x", .error ""⟩ =
      ⟨.responded (newResponse errorStatus none
        [⟨"required", some "name", ["group name is required", ""]⟩]), 0, 0⟩ ∧
    HandleCapabilityCreateRequest "Bearer tok1" (.valid ⟨some "", none⟩)
        ⟨.error "x", .error ""⟩ ≠
      HandleGroupCreationRequest "Bearer tok1" (.valid ⟨some "", none⟩)
        ⟨.error "x", .error ""⟩ := by
  decide

/-- Claim C8, amended.  The two route handlers are behaviourally
equivalent on every input whose body is not a decoded request with an
empty (present, zero-length) name; on empty-name bodies only the
human-readable message inside the validation vals differs. -/
theorem c8_handlers_equivalent (header : String) (body : RequestBody)
    (p : ProviderBehavior)
    (h : ∀ req : CreateGroupRequest, body = .valid req → req.name ≠ some "") :
    HandleCapabilityCreateRequest header body p =
      HandleGroupCreationRequest header body p := by
  cases hext : extractToken header with
  | none => simp [HandleCapabilityCreateRequest, HandleGroupCreationRequest, hext]
  | some tok =>
    cases body with
    | invalid => simp [HandleCapabilityCreateRequest, HandleGroupCreationRequest, hext]
    | valid req =>
      cases hn : req.name with
      | none =>
        simp [HandleCapabilityCreateRequest, HandleGroupCreationRequest, hext,
          validateCreateCapability_nil_name req hn, validateCreateGroup_nil_name req hn]
      | some s =>
        have hs : s ≠ "" := fun h' => h req rfl (by rw [hn, h'])
        have hv1 := validateCreateCapability_pass req s hn hs
        have hv2 := validateCreateGroup_pass req s hn hs
        cases hc : p.createResult with
        | error e =>
          rw [HandleCapability_create_error header tok req s p e hext hn hs hc,
            HandleGroup_create_error header tok req s p e hext hn hs hc]
        | ok cid =>
          cases hg : p.getResult with
          | error ge =>
            simp [HandleCapabilityCreateRequest, HandleGroupCreationRequest, hext,
              hv1, hv2, hc, hg]
          | ok g =>
            cases hid : g.id with
            | none =>
              simp [HandleCapabilityCreateRequest, HandleGroupCreationRequest, hext,
                hv1, hv2, hc, hg, hid]
            | some gid =>
              cases hnm : g.name with
              | none =>
                simp [HandleCapabilityCreateRequest, HandleGroupCreationRequest, hext,
                  hv1, hv2, hc, hg, hid, hnm]
              | some gname =>
                simp [HandleCapabilityCreateRequest, HandleGroupCreationRequest, hext,
                  hv1, hv2, hc, hg, hid, hnm, sendSuccessResponse]

/-- Witness for `c8_handlers_equivalent` on a concrete success input. -/
theorem c8_handlers_equivalent_witness :
    (∀ req : CreateGroupRequest,
      RequestBody.valid ⟨some "Admins", none⟩ = .valid req → req.name ≠ some "") ∧
    HandleCapabilityCreateRequest "Bearer tok1" (.valid ⟨some "Admins", none⟩)
        ⟨.ok "g-1", .ok ⟨some "g-1", some "Admins", some "/Admins", none⟩⟩ =
      HandleGroupCreationRequest "Bearer tok1" (.valid ⟨some "Admins", none⟩)
        ⟨.ok "g-1", .ok ⟨some "g-1", some "Admins", some "/Admins", none⟩⟩ :=
  ⟨fun req hreq => by cases hreq; decide,
    c8_handlers_equivalent "Bearer tok1" (.valid ⟨some "Admins", none⟩)
      ⟨.ok "g-1", .ok ⟨some "g-1", some "Admins", some "/Admins", none⟩⟩
      (fun req hreq => by cases hreq; decide)⟩

/-- Claim C9, counterexample.  The classifier is not a function of the raw
error string alone: two classification calls given the same raw string
(the conflict sentence for "Admins") but different submitted names
yield different taxonomy entries. -/
theorem c9_classifier_depends_on_name :
    classifyCreateError "Admins" (conflictTemplate "Admins") = "name already exist" ∧
    classifyCreateError "Ops" (conflictTemplate "Admins") = "unknown" ∧
    classifyCreateError "Admins" (conflictTemplate "Admins") ≠
      classifyCreateError "Ops" (conflictTemplate "Admins") := by
  decide

/-- Claim C9, amended.  The classifier is a deterministic function of the
pair of the submitted name and the raw error string: any two
classification calls given the same name and the same raw string yield
the same taxonomy entry. -/
theorem c9_classifier_deterministic (n₁ n₂ e₁ e₂ : String)
    (hn : n₁ = n₂) (he : e₁ = e₂) :
    classifyCreateError n₁ e₁ = classifyCreateError n₂ e₂ := by
  rw [hn, he]

/-- Witness for `c9_classifier_deterministic` at a concrete name and raw
error. -/
theorem c9_classifier_deterministic_witness :
    ("Admins" : String) = "Admins" ∧ unauthorizedRaw = unauthorizedRaw ∧
    classifyCreateError "Admins" unauthorizedRaw =
      classifyCreateError "Admins" unauthorizedRaw :=
  ⟨rfl, rfl,
    c9_classifier_deterministic "Admins" "Admins" unauthorizedRaw unauthorizedRaw rfl rfl⟩

/-- Claim C10.  Whenever control reaches the provider-create
error-classification branch — the token was extracted, the body
decoded, and validation passed with no violations — the request's
`Name` pointer is non-nil, so the dereference building the conflict
template (line 107 of both handlers) never faults: neither handler
panics on that branch. -/
theorem c10_conflict_deref_never_faults (header tok : String)
    (req : CreateGroupRequest) (p : ProviderBehavior) (e : String)
    (errs : List ErrorMessage)
    (ht : extractToken header = some tok)
    (hv : validateCreateCapability req = some errs) (herrs : errs = [])
    (hc : p.createResult = .error e) :
    req.name ≠ none ∧
    (HandleCapabilityCreateRequest header (.valid req) p).outcome ≠ .panicked ∧
    (HandleGroupCreationRequest header (.valid req) p).outcome ≠ .panicked := by
  subst herrs
  obtain ⟨nm, hn, hne⟩ := validateCreateCapability_pass_name req hv
  refine ⟨by rw [hn]; simp, ?_, ?_⟩
  · rw [HandleCapability_create_error header tok req nm p e ht hn hne hc]
    simp
  · rw [HandleGroup_create_error header tok req nm p e ht hn hne hc]
    simp

/-- Witness for `c10_conflict_deref_never_faults` at a concrete input that
reaches the classification branch. -/
theorem c10_conflict_deref_never_faults_witness :
    extractToken "Bearer tok1" = some "tok1" ∧
    validateCreateCapability ⟨some "Admins", none⟩ = some [] ∧
    (HandleCapabilityCreateRequest "Bearer tok1" (.valid ⟨some "Admins", none⟩)
      ⟨.error "boom", .error ""⟩).outcome ≠ .panicked :=
  ⟨by decide, by decide,
    (c10_conflict_deref_never_faults "Bearer tok1" "tok1" ⟨some "Admins", none⟩
      ⟨.error "boom", .error ""⟩ "boom" [] (by decide) (by decide) rfl rfl).2.1⟩

end Idshield
